import Mathlib

/-!
Verification of the event-registration bot (krdnt_spc).

This file gives a shallow embedding of the data model and the operations of
the repository into Lean 4, and proves (or refutes) the frozen claims about
it.  Python dictionaries holding records become Lean structures; collections
become association lists keyed by their natural identifier; wall-clock time
is modelled as an integer number of minutes; machine exceptions become
`Except` values with explicit plumbing.  Each definition is translated
directly from the named source function.
-/

namespace KrdntSpc

/-! ## Time model

All timestamps are integers (minutes).  Python compares timezone-aware
`datetime` values; the embedding compares the corresponding minute counts.
`timedelta(hours=2)` is 120 minutes, `timedelta(minutes=m)` is `m`. -/

/-! ## Events

`src/sheets.py` `create_event` always stores the check-in window offsets, but
`src/utils.py` reads them with `event_data.get(key, default)`, so the
embedding keeps them optional, with the `.get` defaults applied at the read
site exactly as in the source. -/

structure Event where
  event_id : String
  title : String
  start_at : Option Int   -- `none` models a missing/unparseable `start_at`
  capacity : Nat
  status : String
  checkin_window_start_minutes : Option Int
  checkin_window_end_minutes : Option Int
deriving Repr, DecidableEq

/-- `src/utils.py` `is_within_checkin_window(event_data)`:
`checkin_start = start_at + timedelta(minutes=event_data.get('checkin_window_start_minutes', -60))`,
`checkin_end   = start_at + timedelta(minutes=event_data.get('checkin_window_end_minutes', 120))`,
result `checkin_start <= now <= checkin_end`; any exception (e.g. a missing
or unparseable `start_at`) yields `False`. -/
def is_within_checkin_window (now : Int) (event_data : Event) : Bool :=
  match event_data.start_at with
  | none => false
  | some start_at =>
      let checkin_start := start_at + (event_data.checkin_window_start_minutes.getD (-60))
      let checkin_end := start_at + (event_data.checkin_window_end_minutes.getD 120)
      decide (checkin_start ≤ now) && decide (now ≤ checkin_end)

/-! ## Event classification (`src/local_storage.py`)

The store holds `events` as a mapping id → record; the queries iterate over
the values, keep only `status == 'active'` records whose `start_at` parses,
and compare against `now`.  The embedding filters a list of events. -/

/-- `LocalStorage.get_upcoming_events`: active events with `start_at > now`. -/
def get_upcoming_events (now : Int) (events : List Event) : List Event :=
  events.filter fun e =>
    e.status == "active" &&
      match e.start_at with
      | none => false
      | some s => decide (s > now)

/-- `LocalStorage.get_past_events`: active events with
`start_at <= now - timedelta(hours=2)`. -/
def get_past_events (now : Int) (events : List Event) : List Event :=
  events.filter fun e =>
    e.status == "active" &&
      match e.start_at with
      | none => false
      | some s => decide (s ≤ now - 120)

/-! ## Proof tokens (`src/utils.py`)

`generate_qr_token` builds `"{r}_{e}_{u}"` from the stripped arguments,
HMAC-SHA256s it under `Config.SECRET_KEY`, base64url-encodes the digest,
takes the first 16 characters and removes `=`, `_`, `-`.  The HMAC/SHA-256
core is the standard library (`hashlib`/`hmac`); it is embedded here in full
(FIPS 180-4 / RFC 2104) over byte lists, with 32-bit arithmetic as `Nat`
reduced by `% 2^32`. -/

/-- UTF-8 bytes of one character (Python `str.encode()`). -/
def utf8Bytes (c : Char) : List Nat :=
  let n := c.toNat
  if n < 128 then [n]
  else if n < 2048 then [192 ||| (n >>> 6), 128 ||| (n &&& 63)]
  else if n < 65536 then
    [224 ||| (n >>> 12), 128 ||| ((n >>> 6) &&& 63), 128 ||| (n &&& 63)]
  else
    [240 ||| (n >>> 18), 128 ||| ((n >>> 12) &&& 63), 128 ||| ((n >>> 6) &&& 63),
      128 ||| (n &&& 63)]

/-- Python `str.encode()`: UTF-8 bytes of a string. -/
def strBytes (s : String) : List Nat := (s.data.map utf8Bytes).flatten

/-- Truncation to a 32-bit word. -/
def w32 (n : Nat) : Nat := n % 4294967296

/-- 32-bit right rotation. -/
def rotr32 (k n : Nat) : Nat := w32 ((n >>> k) ||| (n <<< (32 - k)))

def sumA (x : Nat) : Nat := (rotr32 2 x) ^^^ (rotr32 13 x) ^^^ (rotr32 22 x)

def sumE (x : Nat) : Nat := (rotr32 6 x) ^^^ (rotr32 11 x) ^^^ (rotr32 25 x)

def sigA (x : Nat) : Nat := (rotr32 7 x) ^^^ (rotr32 18 x) ^^^ (x >>> 3)

def sigE (x : Nat) : Nat := (rotr32 17 x) ^^^ (rotr32 19 x) ^^^ (x >>> 10)

/-- SHA-256 round constants (decimal). -/
def sha256K : List Nat :=
  [1116352408, 1899447441, 3049323471, 3921009573, 961987163,
   1508970993, 2453635748, 2870763221, 3624381080, 310598401,
   607225278, 1426881987, 1925078388, 2162078206, 2614888103,
   3248222580, 3835390401, 4022224774, 264347078, 604807628,
   770255983, 1249150122, 1555081692, 1996064986, 2554220882,
   2821834349, 2952996808, 3210313671, 3336571891, 3584528711,
   113926993, 338241895, 666307205, 773529912, 1294757372,
   1396182291, 1695183700, 1986661051, 2177026350, 2456956037,
   2730485921, 2820302411, 3259730800, 3345764771, 3516065817,
   3600352804, 4094571909, 275423344, 430227734, 506948616,
   659060556, 883997877, 958139571, 1322822218, 1537002063,
   1747873779, 1955562222, 2024104815, 2227730452, 2361852424,
   2428436474, 2756734187, 3204031479, 3329325298]

/-- SHA-256 initial hash value (decimal). -/
def sha256H0 : List Nat :=
  [1779033703, 3144134277, 1013904242, 2773480762,
   1359893119, 2600822924, 528734635, 1541459225]

/-- `k` bytes of `n`, big-endian. -/
def beBytes (k n : Nat) : List Nat :=
  (List.range k).map (fun i => (n >>> (8 * (k - 1 - i))) % 256)

/-- SHA-256 padding: append `0x80`, zeros to 56 mod 64, then the 64-bit
big-endian bit length. -/
def sha256Pad (msg : List Nat) : List Nat :=
  let L := msg.length
  let zeros := (119 - L % 64) % 64
  msg ++ 128 :: List.replicate zeros 0 ++ beBytes 8 (8 * L)

/-- Big-endian 32-bit words from a byte list. -/
def toWords : List Nat → List Nat
  | a :: b :: c :: d :: rest => (((a * 256 + b) * 256 + c) * 256 + d) :: toWords rest
  | _ => []

/-- One message-schedule extension step (appends `w[t]` for the next `t`). -/
def extendStep (ws : List Nat) : List Nat :=
  let n := ws.length
  ws ++ [w32 (sigE (ws.getD (n - 2) 0) + ws.getD (n - 7) 0 +
               sigA (ws.getD (n - 15) 0) + ws.getD (n - 16) 0)]

/-- The 64-entry message schedule from the 16 block words. -/
def sha256Schedule (ws : List Nat) : List Nat :=
  (List.range 48).foldl (fun acc _ => extendStep acc) ws

/-- One SHA-256 compression round on the state `[a,b,c,d,e,f,g,h]`. -/
def sha256Round (st : List Nat) (k w : Nat) : List Nat :=
  match st with
  | [a, b, c, d, e, f, g, h] =>
      let ch := (e &&& f) ^^^ ((e ^^^ 4294967295) &&& g)
      let t1 := w32 (h + sumE e + ch + k + w)
      let maj := (a &&& b) ^^^ (a &&& c) ^^^ (b &&& c)
      let t2 := w32 (sumA a + maj)
      [w32 (t1 + t2), a, b, c, w32 (d + t1), e, f, g]
  | _ => st

/-- Compress one 64-byte block into the running hash. -/
def sha256Compress (h : List Nat) (block : List Nat) : List Nat :=
  let ws := sha256Schedule (toWords block)
  let st := (sha256K.zip ws).foldl (fun s kw => sha256Round s kw.1 kw.2) h
  (h.zip st).map (fun p => w32 (p.1 + p.2))

/-- Split a byte list into 64-byte chunks. -/
def chunks64 (xs : List Nat) : List (List Nat) :=
  if h : xs = [] then []
  else xs.take 64 :: chunks64 (xs.drop 64)
termination_by xs.length
decreasing_by
  cases xs with
  | nil => exact absurd rfl h
  | cons a t => simp [List.length_drop]; omega

/-- SHA-256 of a byte list, as 32 bytes. -/
def sha256 (msg : List Nat) : List Nat :=
  (((chunks64 (sha256Pad msg)).foldl sha256Compress sha256H0).map (beBytes 4)).flatten

/-- HMAC-SHA256 (RFC 2104) of a message under a key, as 32 bytes. -/
def hmacSha256 (key msg : List Nat) : List Nat :=
  let k0 := if 64 < key.length then sha256 key ++ List.replicate 32 0
            else key ++ List.replicate (64 - key.length) 0
  let ipadded := k0.map (fun b => b ^^^ 54)
  let opadded := k0.map (fun b => b ^^^ 92)
  sha256 (opadded ++ sha256 (ipadded ++ msg))

/-- The URL-safe base64 alphabet (`base64.urlsafe_b64encode`). -/
def b64UrlAlphabet : List Char :=
  "ABCDEFGHIJKLMNOPQRSTUVWXYZabcdefghijklmnopqrstuvwxyz0123456789-_".data

def b64Char (n : Nat) : Char := b64UrlAlphabet.getD n 'A'

/-- `base64.urlsafe_b64encode` then `.decode('utf-8')`, over byte lists. -/
def urlsafe_b64encode : List Nat → List Char
  | a :: b :: c :: rest =>
      b64Char (a >>> 2) :: b64Char (((a &&& 3) <<< 4) ||| (b >>> 4)) ::
        b64Char (((b &&& 15) <<< 2) ||| (c >>> 6)) :: b64Char (c &&& 63) ::
          urlsafe_b64encode rest
  | [a, b] =>
      [b64Char (a >>> 2), b64Char (((a &&& 3) <<< 4) ||| (b >>> 4)),
       b64Char ((b &&& 15) <<< 2), '=']
  | [a] => [b64Char (a >>> 2), b64Char ((a &&& 3) <<< 4), '=', '=']
  | [] => []

/-- Python whitespace for `str.strip()` (space, \t, \n, \r, \v, \f). -/
def pyIsSpace (c : Char) : Bool :=
  c = ' ' || c = Char.ofNat 9 || c = Char.ofNat 10 || c = Char.ofNat 13 ||
    c = Char.ofNat 11 || c = Char.ofNat 12

/-- Python `str.strip()`: drop leading and trailing whitespace. -/
def pyStrip (s : String) : String :=
  ⟨((s.data.dropWhile pyIsSpace).reverse.dropWhile pyIsSpace).reverse⟩

/-- `Config.SECRET_KEY` (src/config.py line 9): the literal default used when
the environment variable is unset. -/
def SECRET_KEY : String := "default_secret_key"

/-- The signed message of `generate_qr_token`:
`f"{str(registration_id).strip()}_{str(event_id).strip()}_{str(user_id).strip()}"`. -/
def tokenData (registration_id event_id user_id : String) : String :=
  pyStrip registration_id ++ "_" ++ pyStrip event_id ++ "_" ++ pyStrip user_id

/-- `src/utils.py` `generate_qr_token` (lines 67-89), normal path:
HMAC-SHA256 the data under the secret, base64url-encode, take the first 16
characters, remove every `=`, `_` and `-`. -/
def generate_qr_token (registration_id event_id user_id : String) : String :=
  let data := strBytes (tokenData registration_id event_id user_id)
  let signature := hmacSha256 (strBytes SECRET_KEY) data
  ⟨((urlsafe_b64encode signature).take 16).filter
      (fun c => ¬ (c = '=' ∨ c = '_' ∨ c = '-'))⟩

/-- `generate_qr_token` with its `try/except`: `raised` says whether some step
raised, in which case the literal fallback `"default_token"` is returned. -/
def generate_qr_token_result (raised : Bool) (registration_id event_id user_id : String) :
    String :=
  if raised then "default_token"
  else generate_qr_token registration_id event_id user_id

/-- `src/utils.py` `verify_qr_token` (lines 92-107): regenerate the expected
token and compare (`hmac.compare_digest`, i.e. equality). -/
def verify_qr_token (token registration_id event_id user_id : String) : Bool :=
  let expected_token := generate_qr_token registration_id event_id user_id
  decide (token = expected_token)

/-! ## Registrations and the durable store

A registration record as created by `SheetsManager.create_registration`.
`qr_token` is optional because the admin path reads it with
`registration.get('qr_token', '')`.  The `created_at`/`updated_at`
timestamps are elided: no claim depends on them.  Collections are lists in
insertion order (Python dicts preserve insertion order); identifiers are
unique keys. -/

structure Registration where
  registration_id : String
  event_id : String
  user_id : String
  full_name : String
  status : String
  waitlist_position : Option Nat
  qr_token : Option String
  checkin_at : String
deriving Repr, DecidableEq

structure BlacklistEntry where
  user_id : String
  reason : String
  added_by : String
deriving Repr, DecidableEq

structure Storage where
  events : List Event
  registrations : List Registration
  blacklist : List (String × BlacklistEntry)
deriving Repr, DecidableEq

/-- `LocalStorage.get_event`: `self.data['events'].get(str(event_id))`. -/
def get_event (st : Storage) (event_id : String) : Option Event :=
  st.events.find? (fun e => e.event_id == event_id)

/-- `LocalStorage.get_registration`: lookup by registration id. -/
def get_registration (st : Storage) (registration_id : String) : Option Registration :=
  st.registrations.find? (fun r => r.registration_id == registration_id)

/-- `LocalStorage.get_user_registration` (lines 266-280): first registration
of the user for the event whose status is
`registered`, `waitlist` or `attended`. -/
def get_user_registration (st : Storage) (user_id event_id : String) : Option Registration :=
  st.registrations.find? (fun reg =>
    reg.user_id == user_id && reg.event_id == event_id &&
      (reg.status == "registered" || reg.status == "waitlist" || reg.status == "attended"))

/-- `LocalStorage.get_registrations_count` (lines 282-293): number of
registrations for the event with exactly the given status. -/
def get_registrations_count (st : Storage) (event_id status : String) : Nat :=
  (st.registrations.filter (fun reg =>
    reg.event_id == event_id && reg.status == status)).length

/-- `LocalStorage.get_waitlist_count`: `get_registrations_count(event_id, 'waitlist')`. -/
def get_waitlist_count (st : Storage) (event_id : String) : Nat :=
  get_registrations_count st event_id "waitlist"

/-- Python `int()` on a nonnegative decimal string (the only shape
registration ids take); `none` models the `ValueError` the source skips. -/
def pyInt? (s : String) : Option Nat :=
  if s.data ≠ [] ∧ s.data.all (fun c => 48 ≤ c.toNat ∧ c.toNat ≤ 57) then
    some (s.data.foldl (fun n c => 10 * n + (c.toNat - 48)) 0)
  else none

/-- `LocalStorage.get_next_registration_id` (lines 321-334): one plus the
maximum numeric registration id, `1` on an empty collection; non-numeric ids
are skipped. -/
def get_next_registration_id (st : Storage) : Nat :=
  if st.registrations.isEmpty then 1
  else (st.registrations.foldl
    (fun max_id reg =>
      match pyInt? reg.registration_id with
      | some n => max max_id n
      | none => max_id) 0) + 1

/-- `LocalStorage.is_blacklisted` (lines 337-339):
`str(user_id) in self.data['blacklist']`. -/
def is_blacklisted (st : Storage) (user_id : String) : Bool :=
  st.blacklist.any (fun p => p.1 == user_id)

/-- `LocalStorage.update_registration` restricted to a status update, as done
by `SheetsManager.update_registration_status`. -/
def update_registration_status (st : Storage) (registration_id status : String) : Storage :=
  { st with registrations := st.registrations.map (fun r =>
      if r.registration_id == registration_id then { r with status := status } else r) }

/-- `LocalStorage.update_registration` restricted to a `qr_token` update, as
done by `sheets_manager.update_registration(reg_id, {'qr_token': token})`. -/
def update_registration_token (st : Storage) (registration_id token : String) : Storage :=
  { st with registrations := st.registrations.map (fun r =>
      if r.registration_id == registration_id then { r with qr_token := some token } else r) }

/-- `SheetsManager.create_registration` (src/sheets.py lines 255-288):
allocate the next id, give up if the event is unknown, compare the
`registered` count with the capacity, compute the waitlist position as the
current waitlist count plus one, append the record.  Returns the new store
and `(registration_id, status, waitlist_position)` (`none` for the
`(None, None, None)` return). -/
def create_registration (st : Storage) (user_id event_id full_name qr_token : String) :
    Storage × Option (String × String × Option Nat) :=
  let registration_id := toString (get_next_registration_id st)
  match get_event st event_id with
  | none => (st, none)
  | some event =>
      let registered_count := get_registrations_count st event_id "registered"
      let capacity := event.capacity
      let status := if registered_count ≥ capacity then "waitlist" else "registered"
      let waitlist_position :=
        if registered_count ≥ capacity then some (get_waitlist_count st event_id + 1)
        else none
      let registration : Registration :=
        { registration_id := registration_id, event_id := event_id, user_id := user_id,
          full_name := full_name, status := status, waitlist_position := waitlist_position,
          qr_token := some qr_token, checkin_at := "" }
      ({ st with registrations := st.registrations ++ [registration] },
       some (registration_id, status, waitlist_position))

/-- The claim's own counting rule, written from the spec's words (§3: "count
of existing `registered`-or-`attended` registrations") for comparison with
the code's `get_registrations_count`. -/
def specRegisteredOrAttendedCount (st : Storage) (event_id : String) : Nat :=
  (st.registrations.filter (fun reg =>
    reg.event_id == event_id &&
      (reg.status == "registered" || reg.status == "attended"))).length

/-- The proof token issued by the registration dialogue
(`src/main.py` line 271) and by the waitlist-acceptance flow (line 402):
`generate_qr_token(f"reg_{user_id}_{event_id}", event_id, user_id)`. -/
def registration_flow_token (user_id event_id : String) : String :=
  generate_qr_token ("reg_" ++ user_id ++ "_" ++ event_id) event_id user_id

/-! ## Waitlist acceptance (`src/main.py` `take_place_from_waitlist`) -/

inductive TakePlaceReply where
  /-- "К сожалению, место уже занято. Вы остаетесь в листе ожидания." -/
  | placeTaken : TakePlaceReply
  /-- Successful acceptance; carries the freshly stored proof token. -/
  | accepted : String → TakePlaceReply
deriving Repr, DecidableEq

/-- `src/main.py` lines 383-441: if the registration is missing or no longer
`waitlist`, report the place as taken and change nothing; otherwise set the
status to `registered`, generate a new token from
`(f"reg_{user_id}_{event_id}", event_id, user_id)` and store it. -/
def take_place_from_waitlist (st : Storage) (registration_id : String) :
    Storage × TakePlaceReply :=
  match get_registration st registration_id with
  | none => (st, .placeTaken)
  | some registration =>
      if registration.status ≠ "waitlist" then (st, .placeTaken)
      else
        let st1 := update_registration_status st registration_id "registered"
        let user_id := registration.user_id
        let event_id := registration.event_id
        let qr_token := registration_flow_token user_id event_id
        let st2 := update_registration_token st1 registration_id qr_token
        (st2, .accepted qr_token)

/-! ## Registration entry and self-service proof retrieval (`src/main.py`) -/

inductive RegStartOutcome where
  /-- "Действие недоступно. Обратитесь к менеджеру." -/
  | refusedBlacklisted : RegStartOutcome
  /-- "Регистрация на это событие закрыта, так как оно уже прошло." -/
  | refusedEventPassed : RegStartOutcome
  /-- "Вы уже зарегистрированы на это событие" -/
  | alreadyRegistered : RegStartOutcome
  /-- "Вы в листе ожидания. Ваша позиция: ..." -/
  | alreadyWaitlisted : Option Nat → RegStartOutcome
  /-- An `attended` registration exists: the handler returns silently. -/
  | alreadyAttended : RegStartOutcome
  /-- The handler proceeds to prompt for the full name. -/
  | promptFullname : RegStartOutcome
deriving Repr, DecidableEq

/-- `src/main.py` `start_registration` (lines 213-247): block-list first,
then the two-hour "event already passed" check (when the event exists and
its date parses), then the existing-registration short circuit. -/
def start_registration (st : Storage) (now : Int) (user_id event_id : String) :
    RegStartOutcome :=
  if is_blacklisted st user_id then .refusedBlacklisted
  else
    let passed :=
      match get_event st event_id with
      | some event =>
          match event.start_at with
          | some start_at => decide (start_at < now - 120)
          | none => false
      | none => false
    if passed then .refusedEventPassed
    else
      match get_user_registration st user_id event_id with
      | some existing_reg =>
          if existing_reg.status = "registered" then .alreadyRegistered
          else if existing_reg.status = "waitlist" then
            .alreadyWaitlisted existing_reg.waitlist_position
          else .alreadyAttended
      | none => .promptFullname

inductive QrFlowOutcome where
  /-- "У вас нет активных регистраций на события." -/
  | noActiveRegistrations : QrFlowOutcome
  /-- "❌ Событие не найдено в базе данных." -/
  | eventNotFound : QrFlowOutcome
  /-- An exception escaped (here: an unparseable event date). -/
  | internalError : QrFlowOutcome
  /-- "⚠️ Это событие уже прошло. QR-код больше не действителен." -/
  | eventPassed : QrFlowOutcome
  /-- The QR image for `chk_<registration_id>_<qr_token>` is sent. -/
  | sentQr : String → String → QrFlowOutcome
deriving Repr, DecidableEq

/-- The registration-selection loop of `_generate_and_send_qr`
(src/main.py lines 479-503): the user's registrations with status
`registered` or `attended`, in store order, of which the flow takes the last
(`active_registrations[-1]`). -/
def latest_active_registration (st : Storage) (user_id : String) : Option Registration :=
  (st.registrations.filter (fun reg =>
    reg.user_id == user_id &&
      (reg.status == "registered" || reg.status == "attended"))).getLast?

/-- `src/main.py` `_generate_and_send_qr` (lines 469-562): take the latest
registration of the user with status `registered` or `attended`, check the
event exists and has not passed, lazily regenerate an empty or
`'temp_token'` token, and send the QR code.  There is no block-list check
anywhere in this flow. -/
def generate_and_send_qr (st : Storage) (now : Int) (user_id : String) :
    Storage × QrFlowOutcome :=
  match latest_active_registration st user_id with
  | none => (st, .noActiveRegistrations)
  | some registration =>
      match get_event st registration.event_id with
      | none => (st, .eventNotFound)
      | some event =>
          match event.start_at with
          | none => (st, .internalError)
          | some start_at =>
              if start_at < now - 120 then (st, .eventPassed)
              else
                let qr_token := registration.qr_token.getD ""
                if qr_token = "" ∨ qr_token = "temp_token" then
                  let t := generate_qr_token registration.registration_id
                    registration.event_id user_id
                  (update_registration_token st registration.registration_id t,
                   .sentQr registration.registration_id t)
                else (st, .sentQr registration.registration_id qr_token)

/-! ## Broadcast fan-out (`src/broadcast.py`) -/

/-- A record of the flat auxiliary user registry, as consumed by the
broadcast loop (`user_data.get('user_id')`). -/
structure AuxUser where
  user_id : Option String
deriving Repr, DecidableEq

/-- The per-user loop of `broadcast_event` (src/broadcast.py lines 82-97),
projected onto who gets a send attempt: skip records without a `user_id`
and skip users in the block-list. -/
def broadcast_recipients (st : Storage) (users : List AuxUser) : List String :=
  users.filterMap (fun user_data =>
    match user_data.user_id with
    | none => none
    | some user_id =>
        if is_blacklisted st user_id then none else some user_id)

/-! ## Persistence failure plumbing (`src/local_storage.py`)

Python exceptions are modelled by `Except String`; `writeOk` is the outcome
of the underlying `open`/`json.dump` call. -/

/-- The raw file write: raises on failure. -/
def file_write (writeOk : Bool) : Except String Unit :=
  if writeOk then .ok () else .error "write failed"

/-- `LocalStorage.save_locally` (lines 82-93): the whole body sits in
`try/except Exception`, whose handler only logs — so a write failure never
escapes this function. -/
def save_locally (writeOk : Bool) : Except String Unit :=
  match file_write writeOk with
  | .ok _ => .ok ()
  | .error _ => .ok ()

/-- Python dict assignment `d[k] = v` on an association list. -/
def dict_set (l : List (String × BlacklistEntry)) (k : String) (v : BlacklistEntry) :
    List (String × BlacklistEntry) :=
  if l.any (fun p => p.1 == k) then l.map (fun p => if p.1 == k then (k, v) else p)
  else l ++ [(k, v)]

/-- `LocalStorage.add_to_blacklist` (lines 341-356): store the entry, call
`save_locally('blacklist')`, return `True`; the surrounding
`except Exception: ... raise` re-raises whatever escapes the body. -/
def add_to_blacklist (writeOk : Bool) (blacklist : List (String × BlacklistEntry))
    (user_id reason added_by : String) :
    Except String (List (String × BlacklistEntry) × Bool) := do
  let blacklist :=
    dict_set blacklist user_id { user_id := user_id, reason := reason, added_by := added_by }
  let _ ← save_locally writeOk
  return (blacklist, true)

/-- `SheetsManager.add_to_blacklist` (src/sheets.py lines 308-315): converts
an exception from the store into the boolean result `False`. -/
def sheets_add_to_blacklist (writeOk : Bool) (blacklist : List (String × BlacklistEntry))
    (user_id reason added_by : String) : List (String × BlacklistEntry) × Bool :=
  match add_to_blacklist writeOk blacklist user_id reason added_by with
  | .ok (bl, _) => (bl, true)
  | .error _ => (blacklist, false)

/-- `LocalStorage.create_registration` persistence (lines 298-306): append
the record, then `save_locally('registrations')`; there is no local
`try/except`, so an exception from `save_locally` would propagate — but
`save_locally` never raises. -/
def create_registration_persist (writeOk : Bool) (registrations : List Registration)
    (registration : Registration) : Except String (List Registration) := do
  let registrations := registrations ++ [registration]
  let _ ← save_locally writeOk
  return registrations

/-! ## Spreadsheet synchronization (`src/sheets.py` `_sync_to_sheet`) -/

/-- A fetched record: `some fields` for a structured dict (an association
list of column name to cell text), `none` for a non-dict value, which the
loop skips with a warning. -/
abbrev SheetRecord := Option (List (String × String))

/-- The `rows_to_update` list of `_sync_to_sheet` (lines 129-139): one row
per structured record, projecting it onto the headers with
`item_data.get(header, '')`. -/
def rows_to_update (data : List (String × SheetRecord)) (headers : List String) :
    List (List String) :=
  data.filterMap (fun item =>
    item.2.map (fun item_data => headers.map (fun h => (item_data.lookup h).getD "")))

/-- `SheetsManager._sync_to_sheet` (lines 108-150), result on the tab
contents: `if rows_to_update: sheet.clear(); sheet.append_row(headers);
sheet.append_rows(rows_to_update)` — with no rows the tab is left as it
was. -/
def sync_to_sheet (tab : List (List String)) (data : List (String × SheetRecord))
    (headers : List String) : List (List String) :=
  let rows := rows_to_update data headers
  if rows.isEmpty then tab else headers :: rows

/-- The Registrations tab headers (`sync_all_data`, src/sheets.py lines 86-89). -/
def registrationsHeaders : List String :=
  ["registration_id", "event_id", "user_id", "full_name", "status",
   "waitlist_position", "qr_token", "checkin_at", "created_at", "updated_at"]

/-! ## Check-in deep links

`src/main.py` builds `f"https://t.me/{bot}?start=chk_{registration_id}_{qr_token}"`;
`src/checkin_handlers.py` and `src/admin_handlers.py` split the payload on
`'_'` and require exactly three parts. -/

/-- The deep-link payload `chk_<registration_id>_<qr_token>`. -/
def deeplinkPayload (registration_id qr_token : String) : String :=
  "chk_" ++ registration_id ++ "_" ++ qr_token

/-- Python `str.split(sep)` for a one-character separator: split at every
occurrence, keeping empty parts. -/
def pySplit (sep : Char) : List Char → List (List Char)
  | [] => [[]]
  | c :: rest =>
      if c = sep then [] :: pySplit sep rest
      else
        match pySplit sep rest with
        | [] => [[c]]
        | p :: ps => (c :: p) :: ps

/-- `cmd_start_deeplink` (src/checkin_handlers.py lines 17-30) and
`process_qr_deeplink` (src/admin_handlers.py lines 593-604), parse step:
require the `chk_` prefix, split on `'_'`, require exactly three parts,
return `(parts[1], parts[2])`. -/
def parse_checkin_payload (args : String) : Option (String × String) :=
  if ¬ ("chk_".data.isPrefixOf args.data) then none
  else
    match pySplit '_' args.data with
    | [_, p1, p2] => some (⟨p1⟩, ⟨p2⟩)
    | _ => none

/-! ## Administrator token check (`src/admin_handlers.py`) -/

/-- `process_qr_deeplink` (lines 616-638), token validation: accept if the
signature equals the stored token (`registration.get('qr_token', '')`);
otherwise accept iff `verify_qr_token` succeeds, and on that second route
overwrite the stored token with the signature.  Returns `token_valid` and
the registration afterwards. -/
def admin_token_check (registration : Registration) (registration_id signature : String) :
    Bool × Registration :=
  if signature = registration.qr_token.getD "" then
    (true, registration)
  else if verify_qr_token signature registration_id registration.event_id
      registration.user_id then
    (true, { registration with qr_token := some signature })
  else
    (false, registration)

end KrdntSpc

namespace KrdntSpc

/-! ## Claim theorems (time-based) -/

/-- C7: with the default offsets the check-in window test accepts exactly the
closed interval [T−60, T+120]; in general the event's stored offsets are used
when present and (−60, +120) otherwise; the four boundary points behave as
stated. -/
theorem checkin_window_correct :
    (∀ (e : Event) (T now : Int), e.start_at = some T →
        e.checkin_window_start_minutes = none →
        e.checkin_window_end_minutes = none →
        (is_within_checkin_window now e = true ↔ T - 60 ≤ now ∧ now ≤ T + 120)) ∧
    (∀ (e : Event) (T now : Int) (a b : Int), e.start_at = some T →
        e.checkin_window_start_minutes = some a →
        e.checkin_window_end_minutes = some b →
        (is_within_checkin_window now e = true ↔ T + a ≤ now ∧ now ≤ T + b)) ∧
    (∀ (e : Event) (T : Int), e.start_at = some T →
        e.checkin_window_start_minutes = none →
        e.checkin_window_end_minutes = none →
        is_within_checkin_window (T - 61) e = false ∧
        is_within_checkin_window (T - 60) e = true ∧
        is_within_checkin_window (T + 120) e = true ∧
        is_within_checkin_window (T + 121) e = false) := by
  refine ⟨?_, ?_, ?_⟩
  · intro e T now hs h1 h2
    simp [is_within_checkin_window, hs, h1, h2]
  · intro e T now a b hs h1 h2
    simp [is_within_checkin_window, hs, h1, h2]
  · intro e T hs h1 h2
    refine ⟨?_, ?_, ?_, ?_⟩ <;>
      first
        | (simp [is_within_checkin_window, hs, h1, h2]; done)
        | (simp [is_within_checkin_window, hs, h1, h2]; omega)

/-- Witness for `checkin_window_correct` at a concrete event. -/
theorem checkin_window_correct_witness :
    is_within_checkin_window 540 (Event.mk "001" "t" (some 600) 2 "active" none none) = true ∧
    is_within_checkin_window 539 (Event.mk "001" "t" (some 600) 2 "active" none none) = false := by
  have h := checkin_window_correct
  refine ⟨?_, ?_⟩
  · exact ((h.1 (Event.mk "001" "t" (some 600) 2 "active" none none) 600 540 rfl rfl rfl).mpr
      (by norm_num))
  · have := (h.2.2 (Event.mk "001" "t" (some 600) 2 "active" none none) 600 rfl rfl rfl).2.1
    have h61 := (h.2.2 (Event.mk "001" "t" (some 600) 2 "active" none none) 600 rfl rfl rfl).1
    simpa using h61

/-- C9: an active event one hour in the future is upcoming and not past; one
three hours in the past is past and not upcoming; one an hour in the past
(inside the 2-hour grace period) is in neither set. -/
theorem event_classification_correct :
    ∀ (e : Event) (evs : List Event) (now : Int), e ∈ evs → e.status = "active" →
      ((e.start_at = some (now + 60) →
          e ∈ get_upcoming_events now evs ∧ e ∉ get_past_events now evs) ∧
       (e.start_at = some (now - 180) →
          e ∈ get_past_events now evs ∧ e ∉ get_upcoming_events now evs) ∧
       (e.start_at = some (now - 60) →
          e ∉ get_upcoming_events now evs ∧ e ∉ get_past_events now evs)) := by
  intro e evs now hm hst
  refine ⟨?_, ?_, ?_⟩ <;> intro hs <;> constructor <;>
    first
      | (simp [get_upcoming_events, get_past_events, List.mem_filter, hm, hst, hs]; done)
      | (simp [get_upcoming_events, get_past_events, List.mem_filter, hm, hst, hs]; omega)

/-- Witness for `event_classification_correct` at a concrete event. -/
theorem event_classification_correct_witness :
    (Event.mk "001" "t" (some 660) 2 "active" none none) ∈
      get_upcoming_events 600 [Event.mk "001" "t" (some 660) 2 "active" none none] := by
  exact ((event_classification_correct
    (Event.mk "001" "t" (some 660) 2 "active" none none)
    [Event.mk "001" "t" (some 660) 2 "active" none none] 600 (by simp) rfl).1 rfl).1

/-! ## Token-shape helper lemmas -/

/-- A generated token is the 16-character prefix of the encoding with `=`,
`_`, `-` removed, so it has at most 16 characters. -/
theorem token_length_le (r e u : String) : (generate_qr_token r e u).length ≤ 16 := by
  show (((urlsafe_b64encode _).take 16).filter _).length ≤ 16
  exact le_trans (List.length_filter_le _ _) (by simp [List.length_take])

/-- No character of a generated token is `=`, `_` or `-`. -/
theorem token_chars (r e u : String) :
    ∀ c ∈ (generate_qr_token r e u).data, c ≠ '=' ∧ c ≠ '_' ∧ c ≠ '-' := by
  intro c hc
  have hc' : c ∈ ((urlsafe_b64encode
      (hmacSha256 (strBytes SECRET_KEY) (strBytes (tokenData r e u)))).take 16).filter
        (fun c => ¬ (c = '=' ∨ c = '_' ∨ c = '-')) := hc
  have := List.of_mem_filter hc'
  simp at this
  exact ⟨this.1, this.2.1, this.2.2⟩

/-- Splitting `xs ++ sep :: ys` where `xs` is separator-free yields `xs`
followed by the split of `ys`. -/
theorem pySplit_append_sep (sep : Char) (xs ys : List Char) (h : sep ∉ xs) :
    pySplit sep (xs ++ sep :: ys) = xs :: pySplit sep ys := by
  induction xs with
  | nil => simp [pySplit]
  | cons c t ih =>
      have hc : ¬ c = sep := fun e => h (by simp [e])
      have ht : sep ∉ t := fun m => h (by simp [m])
      simp [pySplit, hc, ih ht]

/-- Splitting a separator-free list yields that list as the only part. -/
theorem pySplit_no_sep (sep : Char) (xs : List Char) (h : sep ∉ xs) :
    pySplit sep xs = [xs] := by
  induction xs with
  | nil => simp [pySplit]
  | cons c t ih =>
      have hc : ¬ c = sep := fun e => h (by simp [e])
      have ht : sep ∉ t := fun m => h (by simp [m])
      simp [pySplit, hc, ih ht]

/-- C10 (amended): a token from the generator's normal path has length at
most 16 and no `=`, `_` or `-`, and for a registration id without
underscores the deep-link payload `chk_<id>_<token>` parses back into the id
and the token; the claim's inclusion of the error fallback fails, since
`"default_token"` contains an underscore (see the counterexample). -/
theorem qr_token_shape_correct :
    ∀ (r e u rid : String),
      (generate_qr_token r e u).length ≤ 16 ∧
      (∀ c ∈ (generate_qr_token r e u).data, c ≠ '=' ∧ c ≠ '_' ∧ c ≠ '-') ∧
      ('_' ∉ rid.data →
        parse_checkin_payload (deeplinkPayload rid (generate_qr_token r e u)) =
          some (rid, generate_qr_token r e u)) := by
  intro r e u rid
  refine ⟨token_length_le r e u, token_chars r e u, ?_⟩
  intro hrid
  have htok : '_' ∉ (generate_qr_token r e u).data := by
    intro m
    exact ((token_chars r e u _ m).2.1) rfl
  have hdata : (deeplinkPayload rid (generate_qr_token r e u)).data =
      'c' :: 'h' :: 'k' :: '_' :: (rid.data ++ '_' :: (generate_qr_token r e u).data) := by
    simp [deeplinkPayload, String.data_append]
  have hsplit : pySplit '_' (deeplinkPayload rid (generate_qr_token r e u)).data =
      ["chk".data, rid.data, (generate_qr_token r e u).data] := by
    rw [hdata]
    have h1 : pySplit '_' (['c', 'h', 'k'] ++ '_' :: (rid.data ++ '_' ::
        (generate_qr_token r e u).data)) =
        ['c', 'h', 'k'] :: pySplit '_' (rid.data ++ '_' :: (generate_qr_token r e u).data) :=
      pySplit_append_sep '_' ['c', 'h', 'k'] _ (by decide)
    simp only [List.cons_append, List.nil_append] at h1
    rw [h1, pySplit_append_sep '_' rid.data _ hrid,
      pySplit_no_sep '_' (generate_qr_token r e u).data htok]
  have hpre : ("chk_".data.isPrefixOf (deeplinkPayload rid (generate_qr_token r e u)).data)
      = true := by
    rw [hdata]
    simp [List.isPrefixOf]
  simp only [parse_checkin_payload, hpre, hsplit]
  rfl

/-- Witness for `qr_token_shape_correct` at a concrete input. -/
theorem qr_token_shape_correct_witness :
    ('_' ∉ "7".data) ∧
      parse_checkin_payload (deeplinkPayload "7" (generate_qr_token "1" "2" "3")) =
        some ("7", generate_qr_token "1" "2" "3") :=
  ⟨by decide, (qr_token_shape_correct "1" "2" "3" "7").2.2 (by decide)⟩

/-- C10 counterexample: the error fallback `"default_token"` — the other
string the generator can return — contains an underscore, and a deep link
built from it splits into four parts instead of three, so the claim's
"including the error fallback value" part is false as stated. -/
theorem qr_token_shape_counterexample :
    generate_qr_token_result true "1" "2" "3" = "default_token" ∧
    ('_' ∈ (generate_qr_token_result true "1" "2" "3").data) ∧
    (pySplit '_' (deeplinkPayload "7" (generate_qr_token_result true "1" "2" "3")).data).length
      = 4 := by
  refine ⟨rfl, by decide, by decide⟩

/-- C8 (amended): generate-then-verify on the same triple always succeeds;
verification of that token against another triple succeeds exactly when the
other triple regenerates the same token; in particular a triple whose
components differ only by surrounding whitespace (which `generate_qr_token`
strips away) still verifies — so "any single changed component fails" is
false as stated (see the counterexample). -/
theorem qr_token_roundtrip_correct :
    (∀ r e u, verify_qr_token (generate_qr_token r e u) r e u = true) ∧
    (∀ r e u r' e' u', verify_qr_token (generate_qr_token r e u) r' e' u' = true ↔
        generate_qr_token r' e' u' = generate_qr_token r e u) ∧
    (∀ r r' e e' u u', pyStrip r' = pyStrip r → pyStrip e' = pyStrip e →
        pyStrip u' = pyStrip u →
        verify_qr_token (generate_qr_token r e u) r' e' u' = true) := by
  refine ⟨?_, ?_, ?_⟩
  · intro r e u
    simp [verify_qr_token]
  · intro r e u r' e' u'
    simp [verify_qr_token]
    exact eq_comm
  · intro r r' e e' u u' h1 h2 h3
    simp [verify_qr_token, generate_qr_token, tokenData, h1, h2, h3]

/-- Witness for `qr_token_roundtrip_correct`: `" 1"` strips to `"1"`, so the
token generated for `("1","2","3")` verifies against `(" 1","2","3")`. -/
theorem qr_token_roundtrip_correct_witness :
    pyStrip " 1" = pyStrip "1" ∧
      verify_qr_token (generate_qr_token "1" "2" "3") " 1" "2" "3" = true :=
  ⟨by decide, (qr_token_roundtrip_correct.2.2 "1" " 1" "2" "2" "3" "3")
    (by decide) rfl rfl⟩

/-- C8 counterexample: changing the registration id from `"1"` to `" 1"` —
a different string — does not make verification fail, because the generator
strips surrounding whitespace before signing. -/
theorem qr_token_roundtrip_counterexample :
    (" 1" : String) ≠ "1" ∧
      verify_qr_token (generate_qr_token "1" "2" "3") " 1" "2" "3" = true := by
  constructor
  · decide
  · have h : tokenData " 1" "2" "3" = tokenData "1" "2" "3" := by decide
    simp [verify_qr_token, generate_qr_token, h]

/-- C2: the administrator check-in path accepts the supplied signature iff
it equals the stored token or independently verifies against
`(registration_id, event_id, user_id)`; acceptance through the second route
overwrites the stored token with the signature, and acceptance through the
first route leaves the registration unchanged. -/
theorem admin_signature_check_correct :
    ∀ (reg : Registration) (rid sig : String),
      ((admin_token_check reg rid sig).1 = true ↔
        sig = reg.qr_token.getD "" ∨
          verify_qr_token sig rid reg.event_id reg.user_id = true) ∧
      (sig ≠ reg.qr_token.getD "" →
        verify_qr_token sig rid reg.event_id reg.user_id = true →
        (admin_token_check reg rid sig).2 = { reg with qr_token := some sig }) ∧
      (sig = reg.qr_token.getD "" → (admin_token_check reg rid sig).2 = reg) := by
  intro reg rid sig
  refine ⟨?_, ?_, ?_⟩
  · unfold admin_token_check
    split_ifs with h1 h2 <;> simp_all
  · intro hne hv
    unfold admin_token_check
    split_ifs <;> simp_all
  · intro he
    unfold admin_token_check
    split_ifs <;> simp_all

/-- Witness for `admin_signature_check_correct`: a stored token of length 17
cannot equal a generated token (length at most 16), so the second route
fires and overwrites the stored token. -/
theorem admin_signature_check_correct_witness :
    (admin_token_check
        (Registration.mk "1" "2" "3" "A B" "registered" none
          (some "AAAAAAAAAAAAAAAAA") "") "1" (generate_qr_token "1" "2" "3")).2 =
      { Registration.mk "1" "2" "3" "A B" "registered" none
          (some "AAAAAAAAAAAAAAAAA") "" with
        qr_token := some (generate_qr_token "1" "2" "3") } := by
  have hne : generate_qr_token "1" "2" "3" ≠
      (Registration.mk "1" "2" "3" "A B" "registered" none
        (some "AAAAAAAAAAAAAAAAA") "").qr_token.getD "" := by
    intro h
    have hlen := token_length_le "1" "2" "3"
    rw [h] at hlen
    simp [String.length] at hlen
  have hv : verify_qr_token (generate_qr_token "1" "2" "3") "1" "2" "3" = true := by
    simp [verify_qr_token]
  exact (admin_signature_check_correct
      (Registration.mk "1" "2" "3" "A B" "registered" none
        (some "AAAAAAAAAAAAAAAAA") "") "1" (generate_qr_token "1" "2" "3")).2.1 hne hv

/-! ## Registration-update helper lemmas -/

/-- Looking up a registration after a status update of that id returns the
stored record with the new status. -/
theorem get_registration_update_status (st : Storage) (rid s : String) :
    get_registration (update_registration_status st rid s) rid =
      (get_registration st rid).map (fun r => { r with status := s }) := by
  unfold get_registration update_registration_status
  rw [List.find?_map]
  have hpg : ((fun r : Registration => r.registration_id == rid) ∘
      (fun r => if r.registration_id == rid then { r with status := s } else r)) =
      (fun r : Registration => r.registration_id == rid) := by
    funext r
    by_cases hr : r.registration_id = rid
    · simp [hr]
    · simp [hr]
  rw [hpg]
  cases hfind : st.registrations.find? (fun r => r.registration_id == rid) with
  | none => rfl
  | some r₀ =>
      have hp : r₀.registration_id = rid := by simpa using List.find?_some hfind
      simp [hp]

/-- Looking up a registration after a token update of that id returns the
stored record with the new token. -/
theorem get_registration_update_token (st : Storage) (rid tok : String) :
    get_registration (update_registration_token st rid tok) rid =
      (get_registration st rid).map (fun r => { r with qr_token := some tok }) := by
  unfold get_registration update_registration_token
  rw [List.find?_map]
  have hpg : ((fun r : Registration => r.registration_id == rid) ∘
      (fun r => if r.registration_id == rid then { r with qr_token := some tok } else r)) =
      (fun r : Registration => r.registration_id == rid) := by
    funext r
    by_cases hr : r.registration_id = rid
    · simp [hr]
    · simp [hr]
  rw [hpg]
  cases hfind : st.registrations.find? (fun r => r.registration_id == rid) with
  | none => rfl
  | some r₀ =>
      have hp : r₀.registration_id = rid := by simpa using List.find?_some hfind
      simp [hp]

/-- C5 (amended): accepting an offered place while the registration is still
on the waitlist flips it to `registered` and stores a freshly generated
token — whose value, because generation is a deterministic keyed hash of
`(f"reg_{user_id}_{event_id}", event_id, user_id)`, coincides with the token
the registration dialogue issued for the same registration before the offer;
a second accept attempt is answered with the "place already taken" message
and changes nothing. -/
theorem waitlist_acceptance_correct :
    ∀ (st : Storage) (rid : String) (reg : Registration),
      get_registration st rid = some reg → reg.status = "waitlist" →
      (take_place_from_waitlist st rid).2 =
          .accepted (registration_flow_token reg.user_id reg.event_id) ∧
      get_registration (take_place_from_waitlist st rid).1 rid =
        some { reg with status := "registered",
                        qr_token := some (registration_flow_token reg.user_id reg.event_id) } ∧
      take_place_from_waitlist (take_place_from_waitlist st rid).1 rid =
        ((take_place_from_waitlist st rid).1, .placeTaken) := by
  intro st rid reg hfind hw
  have hout : take_place_from_waitlist st rid =
      (update_registration_token (update_registration_status st rid "registered") rid
        (registration_flow_token reg.user_id reg.event_id),
       .accepted (registration_flow_token reg.user_id reg.event_id)) := by
    simp [take_place_from_waitlist, hfind, hw]
  have hreg2 : get_registration (take_place_from_waitlist st rid).1 rid =
      some { reg with status := "registered",
                      qr_token := some (registration_flow_token reg.user_id reg.event_id) } := by
    rw [hout, get_registration_update_token, get_registration_update_status, hfind]
    rfl
  refine ⟨by rw [hout], hreg2, ?_⟩
  rw [hout] at hreg2 ⊢
  simp only [take_place_from_waitlist, hreg2]
  simp

/-- Witness for `waitlist_acceptance_correct` on a one-registration store. -/
theorem waitlist_acceptance_correct_witness :
    (take_place_from_waitlist
        (Storage.mk [] [Registration.mk "10" "001" "5" "A B" "waitlist" (some 1)
          (some (registration_flow_token "5" "001")) ""] []) "10").2 =
      .accepted (registration_flow_token "5" "001") := by
  have h := waitlist_acceptance_correct
    (Storage.mk [] [Registration.mk "10" "001" "5" "A B" "waitlist" (some 1)
      (some (registration_flow_token "5" "001")) ""] []) "10"
    (Registration.mk "10" "001" "5" "A B" "waitlist" (some 1)
      (some (registration_flow_token "5" "001")) "")
    (by simp [get_registration]) rfl
  exact h.1

/-- C5 counterexample: for a waitlist registration whose stored token is the
one the registration dialogue issued
(`generate_qr_token(f"reg_{user_id}_{event_id}", event_id, user_id)`,
src/main.py line 271), accepting the offer issues a token with exactly the
same value — the "new" token is not distinct from every token issued for
that registration before the offer, because generation is deterministic over
the same identifiers (src/main.py line 402). -/
theorem waitlist_acceptance_counterexample :
    (take_place_from_waitlist
        (Storage.mk [] [Registration.mk "10" "001" "5" "A B" "waitlist" (some 1)
          (some (registration_flow_token "5" "001")) ""] []) "10").2 =
      .accepted ((Registration.mk "10" "001" "5" "A B" "waitlist" (some 1)
          (some (registration_flow_token "5" "001")) "").qr_token.getD "") := by
  simp [take_place_from_waitlist, get_registration]

/-- C1 (amended): a registration is created as `registered` exactly when the
count of existing registrations with status `registered` (only — `attended`
ones are not counted, unlike the claim's wording) is below the event's
capacity, else as `waitlist` at position waitlist-count + 1; the capacity-2
scenario behaves as stated: the 1st and 2nd registrations are `registered`,
the 3rd is `waitlist` at position 1, the 4th `waitlist` at position 2. -/
theorem capacity_waitlist_correct :
    (∀ (st : Storage) (uid eid name tok : String) (event : Event),
        get_event st eid = some event →
        ((create_registration st uid eid name tok).2.map (fun x => x.2.1) =
            some "registered" ↔
          get_registrations_count st eid "registered" < event.capacity) ∧
        (¬ get_registrations_count st eid "registered" < event.capacity →
          (create_registration st uid eid name tok).2.map (fun x => x.2) =
            some ("waitlist", some (get_waitlist_count st eid + 1)))) ∧
    (let st0 : Storage :=
        ⟨[Event.mk "001" "t" (some 600) 2 "active" (some (-60)) (some 120)], [], []⟩
     let o1 := create_registration st0 "5" "001" "A B" "t1"
     let o2 := create_registration o1.1 "6" "001" "C D" "t2"
     let o3 := create_registration o2.1 "7" "001" "E F" "t3"
     let o4 := create_registration o3.1 "8" "001" "G H" "t4"
     o1.2 = some ("1", "registered", none) ∧
     o2.2 = some ("2", "registered", none) ∧
     o3.2 = some ("3", "waitlist", some 1) ∧
     o4.2 = some ("4", "waitlist", some 2)) := by
  constructor
  · intro st uid eid name tok event hev
    constructor
    · simp only [create_registration, hev]
      by_cases hc : get_registrations_count st eid "registered" ≥ event.capacity <;>
        first
          | (simp [hc]; done)
          | (simp [hc]; omega)
    · intro hge
      have hc : get_registrations_count st eid "registered" ≥ event.capacity := by omega
      simp only [create_registration, hev]
      simp [hc, get_waitlist_count]
  · decide

/-- Witness for `capacity_waitlist_correct` on a store holding one
capacity-1 event and no registrations. -/
theorem capacity_waitlist_correct_witness :
    get_event (Storage.mk [Event.mk "001" "t" (some 600) 1 "active" none none] [] []) "001" =
        some (Event.mk "001" "t" (some 600) 1 "active" none none) ∧
      ((create_registration (Storage.mk [Event.mk "001" "t" (some 600) 1 "active" none none]
          [] []) "5" "001" "A B" "t1").2.map (fun x => x.2.1) = some "registered" ↔
        get_registrations_count (Storage.mk [Event.mk "001" "t" (some 600) 1 "active" none none]
          [] []) "001" "registered" <
          (Event.mk "001" "t" (some 600) 1 "active" none none).capacity) :=
  ⟨by decide,
   ((capacity_waitlist_correct.1 (Storage.mk [Event.mk "001" "t" (some 600) 1 "active" none none]
      [] []) "5" "001" "A B" "t1" (Event.mk "001" "t" (some 600) 1 "active" none none)
      (by decide)).1)⟩

/-- C1 counterexample: an event of capacity 1 with one `attended`
registration.  The registered-or-attended count (1) is not below the
capacity, yet the new registration is created as `registered` — the code
compares only the `registered` count (src/sheets.py line 263 uses
`get_registrations_count(event_id)` with its default status `'registered'`). -/
theorem capacity_waitlist_counterexample :
    (create_registration
        (Storage.mk [Event.mk "001" "t" (some 600) 1 "active" (some (-60)) (some 120)]
          [Registration.mk "1" "001" "5" "A B" "attended" none (some "t0") ""] [])
        "7" "001" "C D" "t1").2 = some ("2", "registered", none) ∧
    ¬ (specRegisteredOrAttendedCount
        (Storage.mk [Event.mk "001" "t" (some 600) 1 "active" (some (-60)) (some 120)]
          [Registration.mk "1" "001" "5" "A B" "attended" none (some "t0") ""] [])
        "001" <
      (Event.mk "001" "t" (some 600) 1 "active" (some (-60)) (some 120)).capacity) := by
  constructor
  · decide
  · decide

/-- C3: the code evaluated at a failing file write during block-list
insertion: `save_locally` swallows the failure itself (its `try/except`
only logs), so `add_to_blacklist` returns success and its `except ... raise`
never fires; the facade reports `True`.  Other collections behave the same
way, e.g. the registration-creation persistence path. -/
theorem blacklist_persistence_swallowed :
    file_write false = .error "write failed" ∧
    save_locally false = .ok () ∧
    add_to_blacklist false [] "5" "spam" "99" =
      .ok ([("5", BlacklistEntry.mk "5" "spam" "99")], true) ∧
    sheets_add_to_blacklist false [] "5" "spam" "99" =
      ([("5", BlacklistEntry.mk "5" "spam" "99")], true) ∧
    create_registration_persist false []
        (Registration.mk "1" "001" "5" "A B" "registered" none (some "t") "") =
      .ok [Registration.mk "1" "001" "5" "A B" "registered" none (some "t") ""] := by
  exact ⟨rfl, rfl, rfl, rfl, rfl⟩

/-- C4 (amended): a block-listed user is refused at the event-registration
entry point and is skipped by the broadcast fan-out — but the self-service
proof-retrieval flow never consults the block-list: whenever the user's
latest active registration points at an existing, not-yet-passed event, the
flow sends the QR code even though the user is block-listed. -/
theorem blacklist_gate_correct :
    (∀ (st : Storage) (now : Int) (uid eid : String),
        is_blacklisted st uid = true →
        start_registration st now uid eid = .refusedBlacklisted) ∧
    (∀ (st : Storage) (users : List AuxUser) (uid : String),
        is_blacklisted st uid = true → uid ∉ broadcast_recipients st users) ∧
    (∀ (st : Storage) (now : Int) (uid : String) (reg : Registration) (event : Event)
        (start_at : Int),
        is_blacklisted st uid = true →
        latest_active_registration st uid = some reg →
        get_event st reg.event_id = some event →
        event.start_at = some start_at →
        ¬ (start_at < now - 120) →
        ∃ tok, (generate_and_send_qr st now uid).2 = .sentQr reg.registration_id tok) := by
  refine ⟨?_, ?_, ?_⟩
  · intro st now uid eid hb
    simp [start_registration, hb]
  · intro st users uid hb hm
    unfold broadcast_recipients at hm
    rw [List.mem_filterMap] at hm
    obtain ⟨a, _, ha⟩ := hm
    cases hau : a.user_id with
    | none => rw [hau] at ha; exact Option.noConfusion ha
    | some v =>
        rw [hau] at ha
        by_cases hbv : is_blacklisted st v = true
        · simp [hbv] at ha
        · simp [hbv] at ha
          rw [ha] at hbv
          exact hbv hb
  · intro st now uid reg event start_at _hb hlast hev hst hnp
    simp only [generate_and_send_qr, hlast, hev, hst]
    rw [if_neg hnp]
    by_cases ht : reg.qr_token.getD "" = "" ∨ reg.qr_token.getD "" = "temp_token"
    · rw [if_pos ht]
      exact ⟨_, rfl⟩
    · rw [if_neg ht]
      exact ⟨_, rfl⟩

/-- Witness for `blacklist_gate_correct` at a concrete store with a
block-listed user holding a registered place on an upcoming event. -/
theorem blacklist_gate_correct_witness :
    is_blacklisted
        (Storage.mk [Event.mk "001" "t" (some 600) 2 "active" none none]
          [Registration.mk "1" "001" "5" "A B" "registered" none (some "tok9") ""]
          [("5", BlacklistEntry.mk "5" "spam" "99")]) "5" = true ∧
      start_registration
        (Storage.mk [Event.mk "001" "t" (some 600) 2 "active" none none]
          [Registration.mk "1" "001" "5" "A B" "registered" none (some "tok9") ""]
          [("5", BlacklistEntry.mk "5" "spam" "99")]) 0 "5" "001" =
        .refusedBlacklisted :=
  ⟨by decide,
   (blacklist_gate_correct.1
      (Storage.mk [Event.mk "001" "t" (some 600) 2 "active" none none]
        [Registration.mk "1" "001" "5" "A B" "registered" none (some "tok9") ""]
        [("5", BlacklistEntry.mk "5" "spam" "99")]) 0 "5" "001" (by decide))⟩

/-- C4 counterexample: the same concrete store — the user is on the
block-list, yet the self-service proof-retrieval flow sends them the QR code
for their registration (`src/main.py` `_generate_and_send_qr` has no
block-list check). -/
theorem blacklist_gate_counterexample :
    is_blacklisted
        (Storage.mk [Event.mk "001" "t" (some 600) 2 "active" none none]
          [Registration.mk "1" "001" "5" "A B" "registered" none (some "tok9") ""]
          [("5", BlacklistEntry.mk "5" "spam" "99")]) "5" = true ∧
      (generate_and_send_qr
        (Storage.mk [Event.mk "001" "t" (some 600) 2 "active" none none]
          [Registration.mk "1" "001" "5" "A B" "registered" none (some "tok9") ""]
          [("5", BlacklistEntry.mk "5" "spam" "99")]) 0 "5").2 =
        .sentQr "1" "tok9" := by
  constructor
  · decide
  · decide

/-- C6 (amended): a sync pass over a tab whose data yields at least one
structured row clears the tab and rewrites it as the fixed header row
followed by one row per structured record (missing fields as empty string);
a pass with no rows leaves the tab untouched; in either case a second pass
over the same data produces the same contents as the first. -/
theorem sheet_sync_correct :
    ∀ (tab : List (List String)) (data : List (String × SheetRecord))
      (headers : List String),
      (rows_to_update data headers ≠ [] →
        sync_to_sheet tab data headers = headers :: rows_to_update data headers) ∧
      (rows_to_update data headers = [] → sync_to_sheet tab data headers = tab) ∧
      sync_to_sheet (sync_to_sheet tab data headers) data headers =
        sync_to_sheet tab data headers := by
  intro tab data headers
  by_cases hr : rows_to_update data headers = []
  · simp [sync_to_sheet, List.isEmpty_iff, hr]
  · simp [sync_to_sheet, List.isEmpty_iff, hr]

/-- Witness for `sheet_sync_correct`: one structured record replaces a stale
tab with the header row plus its projection. -/
theorem sheet_sync_correct_witness :
    rows_to_update [("1", some [("registration_id", "1"), ("user_id", "5")])]
        registrationsHeaders ≠ [] ∧
      sync_to_sheet [["stale"]] [("1", some [("registration_id", "1"), ("user_id", "5")])]
          registrationsHeaders =
        registrationsHeaders ::
          rows_to_update [("1", some [("registration_id", "1"), ("user_id", "5")])]
            registrationsHeaders :=
  ⟨by decide,
   (sheet_sync_correct [["stale"]] [("1", some [("registration_id", "1"), ("user_id", "5")])]
      registrationsHeaders).1 (by decide)⟩

/-- C6 counterexample: a pass whose data holds no structured record (empty
data, or a single non-dict record) does not clear the tab and writes no
header row — stale contents survive the pass, contradicting "every pass
clears the tab and writes the header row". -/
theorem sheet_sync_counterexample :
    sync_to_sheet [["stale", "row"]] [] registrationsHeaders = [["stale", "row"]] ∧
    sync_to_sheet [["stale", "row"]] [("1", none)] registrationsHeaders =
      [["stale", "row"]] ∧
    [["stale", "row"]] ≠ [registrationsHeaders] := by
  exact ⟨rfl, rfl, by decide⟩

end KrdntSpc
